import Mathlib

/-!
Shallow embedding of the rust-assignment sensing/actuation pipeline.

Real numbers (`f64`) are modelled as `ℚ`; division by zero therefore follows
the Lean convention `x / 0 = 0` (the embedded code only divides where the
claims under study are unaffected by this choice, noted at each site).
`f64::sqrt` has no exact rational counterpart, so functions of the source
that take a square root (the rolling standard deviation, the jitter field)
receive the square-root map as an explicit parameter `sqrtQ`; no theorem
below depends on its values beyond what is stated in its hypotheses.
Wall-clock reads (`SystemTime::now`, `Instant::now`) are modelled as
explicit `now` parameters.
-/

namespace RustAssignment

/-- Sensor kinds, from src/common/data_types.rs (enum SensorType). -/
inductive SensorType where
  | Force
  | Position
  | Velocity
  | Temperature
deriving DecidableEq, Repr

/-- Sensor reading, from src/common/data_types.rs (struct SensorData). -/
structure SensorData where
  timestamp : ℕ
  sensor_id : String
  reading_type : SensorType
  value : ℚ
  is_anomaly : Bool
  confidence : ℚ
deriving DecidableEq, Repr

/-- Control command, from src/common/data_types.rs (struct ControlCommand). -/
structure ControlCommand where
  command_type : String
  payload : Option String
  timestamp : ℕ
  value : ℚ
deriving DecidableEq, Repr

/-- Actuator command as constructed by
DataProcessor::generate_actuator_command in src/sensor/processor.rs:
a command_id string, the target actuator, the wrapped control command, a
priority, and an absolute deadline in milliseconds since the epoch.
(The declaration in data_types.rs omits command_id and types the deadline
as Instant; the construction site embedded here is the one the claims
are about.) -/
structure ActuatorCommand where
  command_id : String
  actuator_id : String
  control_command : ControlCommand
  priority : ℕ
  deadline : ℕ
deriving DecidableEq, Repr

/-- Actuator status, from src/common/data_types.rs (enum ActuatorStatus). -/
inductive ActuatorStatus where
  | Normal
  | Adjusting
  | Warning
  | Error
deriving DecidableEq, Repr

/-- Actuator feedback, from src/common/data_types.rs (struct ActuatorFeedback). -/
structure ActuatorFeedback where
  timestamp : ℕ
  actuator_id : String
  status : ActuatorStatus
  message : Option String
deriving DecidableEq, Repr

/-- SensorData::detect_anomaly from src/common/data_types.rs (lines 88-108):
when std_dev is positive, the z-score |value - mean| / std_dev is compared
with the threshold to set is_anomaly, and confidence is
max (1 - min (z / (threshold * 2)) 0.9) 0.1; otherwise is_anomaly is forced
to false and confidence to 0.0. -/
def SensorData.detect_anomaly (d : SensorData) (mean std_dev threshold : ℚ) :
    SensorData :=
  if std_dev > 0 then
    let z_score := |d.value - mean| / std_dev
    let is_anomaly := decide (z_score > threshold)
    let confidence := (1 : ℚ) - min (z_score / (threshold * 2)) 0.9
    let confidence := max confidence 0.1
    { d with is_anomaly := is_anomaly, confidence := confidence }
  else
    { d with is_anomaly := false, confidence := 0.0 }

/-- PID controller state, from src/actuator/controller.rs (struct PIDController). -/
structure PIDController where
  kp : ℚ
  ki : ℚ
  kd : ℚ
  prev_error : ℚ
  integral : ℚ
deriving DecidableEq, Repr

/-- PIDController::new from src/actuator/controller.rs. -/
def PIDController.new (kp ki kd : ℚ) : PIDController :=
  { kp := kp, ki := ki, kd := kd, prev_error := 0, integral := 0 }

/-- PIDController::compute from src/actuator/controller.rs (lines 27-46).
Returns the emitted ControlCommand together with the updated controller
state; the SystemTime::now millisecond read used for the timestamp is the
parameter now_ms. -/
def PIDController.compute (c : PIDController)
    (setpoint measurement dt : ℚ) (now_ms : ℕ) :
    ControlCommand × PIDController :=
  let error := setpoint - measurement
  let integral := c.integral + error * dt
  let derivative := (error - c.prev_error) / dt
  let prev_error := error
  let output := c.kp * error + c.ki * integral + c.kd * derivative
  ({ command_type := "PID_OUTPUT", payload := none, timestamp := now_ms,
     value := output },
   { c with integral := integral, prev_error := prev_error })

/-- Scheduler state, from src/actuator/scheduler.rs: the Duration built by
Scheduler::new(interval_ms) (stored, but never read by start). -/
structure Scheduler where
  interval_ms : ℕ
deriving DecidableEq, Repr

/-- One iteration of the loop body of Scheduler::start
(src/actuator/scheduler.rs lines 19-32), times in milliseconds.
next_instant is the loop variable on entry; now is the Instant::now value
observed after the task ran.  The result is the sleep duration requested
(none when the iteration continues immediately) paired with the value of
next_instant at the end of the iteration.  The source advances
next_instant by the literal Duration::from_millis(5); the stored interval
field is not consulted. -/
def Scheduler.tick (_s : Scheduler) (next_instant now : ℚ) : Option ℚ × ℚ :=
  let next_instant := next_instant + 5
  if next_instant > now then
    (some (next_instant - now), next_instant)
  else
    (none, now)

/-- Executor, from src/actuator/executor.rs (unit struct). -/
structure Executor where
deriving DecidableEq, Repr

/-- Whether Executor::execute (src/actuator/executor.rs lines 10-19) runs
the given command: the source prints and executes unconditionally, with no
guard of any kind (in particular no deadline check), so this is constantly
true. -/
def Executor.executes (_e : Executor) (_command : ControlCommand) : Bool :=
  true

/-- One delivery iteration of the consumer loop of run_actuator_system
(src/actuator/system.rs lines 115-147): the deserialized command is
forwarded on command_tx (first component; none would mean it was
discarded, which the source never does) and a Normal feedback referencing
its actuator_id is published (second component).  now_ms is the
SystemTime::now millisecond read used for the feedback timestamp. -/
def run_actuator_step (now_ms : ℕ) (command : ActuatorCommand) :
    Option ActuatorCommand × ActuatorFeedback :=
  (some command,
   { timestamp := now_ms, actuator_id := command.actuator_id,
     status := ActuatorStatus.Normal, message := none })

/-- Rolling statistics accumulator, modelling rolling_stats::Stats of the
rolling-stats crate as used by src/sensor/processor.rs: Welford online
update of count, mean and the sum of squared deviations (d_squared), with
std_dev the square root of the running variance.  The square root is
taken through the sqrtQ parameter of Stats.update. -/
structure Stats where
  count : ℕ
  mean : ℚ
  d_squared : ℚ
  std_dev : ℚ
deriving DecidableEq, Repr

/-- Stats::default of the rolling-stats crate: the all-zero accumulator
(this is what HashMap entry(..).or_default() inserts). -/
def Stats.init : Stats :=
  { count := 0, mean := 0, d_squared := 0, std_dev := 0 }

/-- Stats::update of the rolling-stats crate (Welford online algorithm):
count is incremented, the mean moves by (value - mean) / count, d_squared
grows by (value - new_mean) * (value - old_mean), and std_dev is the
square root (via sqrtQ) of the running variance d_squared / count. -/
def Stats.update (st : Stats) (sqrtQ : ℚ → ℚ) (value : ℚ) : Stats :=
  let count := st.count + 1
  let new_mean := st.mean + (value - st.mean) / (count : ℚ)
  let d_squared := st.d_squared + (value - new_mean) * (value - st.mean)
  let variance := d_squared / (count : ℚ)
  { count := count, mean := new_mean, d_squared := d_squared,
    std_dev := sqrtQ variance }

/-- The per-sensor-kind anomaly thresholds installed by
DataProcessor::new, identical in src/sensor/processor.rs (lines 24-27)
and src/sensors/processor.rs (lines 20-23): Force 2.5, Position 3.0,
Velocity 2.8, Temperature 3.5. -/
def defaultThresholds : SensorType → Option ℚ
  | SensorType.Force => some 2.5
  | SensorType.Position => some 3.0
  | SensorType.Velocity => some 2.8
  | SensorType.Temperature => some 3.5

/-- Data processor state, from src/sensor/processor.rs (struct
DataProcessor): the per-sensor rolling statistics (HashMap modelled as a
partial map), the unused _window_size, and the per-kind thresholds. -/
structure DataProcessor where
  moving_averages : String → Option Stats
  window_size : ℕ
  anomaly_thresholds : SensorType → Option ℚ

/-- DataProcessor::new from src/sensor/processor.rs (lines 21-34). -/
def DataProcessor.new (window_size : ℕ) : DataProcessor :=
  { moving_averages := fun _ => none, window_size := window_size,
    anomaly_thresholds := defaultThresholds }

/-- DataProcessor::process from src/sensor/processor.rs (lines 36-61):
updates the sensor's rolling statistics with the raw value, replaces the
reading's value with the rolling mean (the filtered value), and then
calls detect_anomaly with that same mean, the rolling std_dev, and the
per-kind threshold (3.0 when the kind is missing from the map).  Returns
the processed reading and the updated processor state; the
PerformanceMetrics return value of the source carries only wall-clock
timing and is not modelled. -/
def DataProcessor.process (p : DataProcessor) (sqrtQ : ℚ → ℚ)
    (raw_data : SensorData) : SensorData × DataProcessor :=
  let sensor_id := raw_data.sensor_id
  let moving_avg := (p.moving_averages sensor_id).getD Stats.init
  let moving_avg := moving_avg.update sqrtQ raw_data.value
  let filtered_value := moving_avg.mean
  let threshold := (p.anomaly_thresholds raw_data.reading_type).getD 3.0
  let raw_data := { raw_data with value := filtered_value }
  let raw_data :=
    raw_data.detect_anomaly filtered_value moving_avg.std_dev threshold
  (raw_data,
   { p with moving_averages := fun k =>
      if k = sensor_id then some moving_avg
      else p.moving_averages k })

/-- Folds DataProcessor::process over a list of readings, keeping the
final processor state (outputs discarded). -/
def DataProcessor.feed (p : DataProcessor) (sqrtQ : ℚ → ℚ)
    (ds : List SensorData) : DataProcessor :=
  ds.foldl (fun q d => (q.process sqrtQ d).2) p

/-- DataProcessor::generate_actuator_command from src/sensor/processor.rs
(lines 62-84): emits a command exactly when the reading is flagged
anomalous; the deadline is the SystemTime::now millisecond read plus
2000.  Both clock reads of the source (current_timestamp_ms for the
timestamp and the deadline computation) are modelled by the single
parameter now_ms. -/
def DataProcessor.generate_actuator_command (_p : DataProcessor)
    (now_ms : ℕ) (sensor_data : SensorData) : Option ActuatorCommand :=
  if sensor_data.is_anomaly then
    some { command_id := "cmd_" ++ sensor_data.sensor_id
         , actuator_id := sensor_data.sensor_id
         , control_command :=
            { command_type := "adjust_position"
            , payload := some "new_target_position"
            , timestamp := now_ms
            , value := sensor_data.value }
         , priority := 1
         , deadline := now_ms + 2000 }
  else
    none

namespace Sensors

/-- Windowed moving-average accumulator, modelling the rolling_stats::Mean
API used by src/sensors/processor.rs (with_capacity / push / len / mean);
per the source comments (moving average filter with a window size) it
keeps at most capacity samples, evicting the oldest on overflow. -/
structure Mean where
  capacity : ℕ
  values : List ℚ
deriving DecidableEq, Repr

/-- Mean::with_capacity: an empty window of the given capacity. -/
def Mean.with_capacity (n : ℕ) : Mean :=
  { capacity := n, values := [] }

/-- Mean::push: appends a sample, evicting the oldest when full. -/
def Mean.push (m : Mean) (v : ℚ) : Mean :=
  if m.values.length < m.capacity then
    { m with values := m.values ++ [v] }
  else
    { m with values := m.values.tail ++ [v] }

/-- Mean::len: number of samples currently held. -/
def Mean.len (m : Mean) : ℕ :=
  m.values.length

/-- Mean::mean: arithmetic mean of the held samples. -/
def Mean.mean (m : Mean) : ℚ :=
  m.values.sum / (m.len : ℚ)

/-- Data processor state, from src/sensors/processor.rs (struct
DataProcessor). -/
structure DataProcessor where
  moving_averages : String → Option Mean
  window_size : ℕ
  anomaly_thresholds : SensorType → Option ℚ

/-- DataProcessor::new from src/sensors/processor.rs (lines 16-30); the
threshold map has the same contents as the src/sensor variant. -/
def DataProcessor.new (window_size : ℕ) : DataProcessor :=
  { moving_averages := fun _ => none, window_size := window_size,
    anomaly_thresholds := defaultThresholds }

/-- DataProcessor::process from src/sensors/processor.rs (lines 33-90):
pushes the raw value into the sensor's window, computes the filtered
value (the window mean once nonempty), and, when the window holds at
least 10 samples, runs z-score anomaly detection against the
approximation std_dev = 0.1 * |filtered|; below 10 samples is_anomaly
passes through from the input and confidence is the default 0.95.  The
source divides by std_dev with no zero guard; in this ℚ model a zero
std_dev makes the z-score 0 (the claims below never rest on that case).
The PerformanceMetrics return value is timing-only and not modelled. -/
def DataProcessor.process (p : DataProcessor) (raw_data : SensorData) :
    SensorData × DataProcessor :=
  let moving_avg := (p.moving_averages raw_data.sensor_id).getD
    (Mean.with_capacity p.window_size)
  let moving_avg := moving_avg.push raw_data.value
  let filtered_value :=
    if moving_avg.len > 0 then moving_avg.mean else raw_data.value
  let is_anomaly := raw_data.is_anomaly
  let confidence : ℚ := 0.95
  let result :=
    if moving_avg.len ≥ 10 then
      let threshold := (p.anomaly_thresholds raw_data.reading_type).getD 3.0
      let std_dev := 0.1 * |filtered_value|
      let z_score := |raw_data.value - filtered_value| / std_dev
      let is_anomaly := decide (z_score > threshold)
      let confidence := (1 : ℚ) - min (z_score / (threshold * 2)) 0.9
      let confidence := max confidence 0.1
      (is_anomaly, confidence)
    else
      (is_anomaly, confidence)
  ({ timestamp := raw_data.timestamp
   , sensor_id := raw_data.sensor_id
   , reading_type := raw_data.reading_type
   , value := filtered_value
   , is_anomaly := result.1
   , confidence := result.2 },
   { p with moving_averages := fun k =>
      if k = raw_data.sensor_id then some moving_avg
      else p.moving_averages k })

/-- Maps DataProcessor::process over a list of readings, collecting the
processed outputs in order. -/
def DataProcessor.processSeq (p : DataProcessor) :
    List SensorData → List SensorData
  | [] => []
  | d :: ds =>
    let r := p.process d
    r.1 :: r.2.processSeq ds

end Sensors

/-- Performance metrics sample, from src/common/data_types.rs (struct
PerformanceMetrics); Instant fields carried as milliseconds. -/
structure PerformanceMetrics where
  operation : String
  start_time : ℚ
  end_time : Option ℚ
  duration_ms : Option ℚ
  success : Bool
deriving DecidableEq, Repr

/-- Per-operation statistics, from src/common/metrics.rs (struct
OperationStats). -/
structure OperationStats where
  operation : String
  total_operations : ℕ
  success_rate : ℚ
  avg_duration : ℚ
  min_duration : ℚ
  max_duration : ℚ
  jitter : ℚ
  missed_deadlines : ℕ
deriving DecidableEq, Repr

/-- One step of the source's min fold
durations.iter().fold(f64::INFINITY, |a, b| a.min(b)), with the f64
infinity of the accumulator modelled as none. -/
def foldMin (a : Option ℚ) (b : ℚ) : Option ℚ :=
  match a with
  | none => some b
  | some x => some (min x b)

/-- One step of the source's max fold over f64::NEG_INFINITY. -/
def foldMax (a : Option ℚ) (b : ℚ) : Option ℚ :=
  match a with
  | none => some b
  | some x => some (max x b)

/-- The per-operation latency budget comparison of the missed-deadlines
loop in MetricsCollector::generate_report (src/common/metrics.rs lines
80-97): data_processing misses above 2 ms, data_transmission above 1 ms,
anything else never. -/
def missedBudget (operation : String) (duration : ℚ) : Bool :=
  if operation = "data_processing" then decide (duration > 2)
  else if operation = "data_transmission" then decide (duration > 1)
  else false

/-- The body of the per-operation loop of MetricsCollector::generate_report
(src/common/metrics.rs lines 42-111): none when the sample list is empty
(the continue), otherwise the OperationStats built from it.  The
min/max folds start from f64 infinities (modelled by foldMin/foldMax over
Option ℚ) and the is_finite guards map a still-infinite fold result to
0.0.  The jitter square root is taken through sqrtQ. -/
def reportEntry (sqrtQ : ℚ → ℚ) (operation : String)
    (metrics : List PerformanceMetrics) : Option OperationStats :=
  if metrics.isEmpty then none
  else
    let total := metrics.length
    let success_count := (metrics.filter (fun m => m.success)).length
    let success_rate := (success_count : ℚ) / (total : ℚ) * 100
    let durations := metrics.filterMap (fun m => m.duration_ms)
    let avg_duration :=
      if !durations.isEmpty then durations.sum / (durations.length : ℚ)
      else 0
    let min_duration := durations.foldl foldMin none
    let max_duration := durations.foldl foldMax none
    let jitter :=
      if durations.length > 1 then
        let mean := avg_duration
        let variance :=
          (durations.map (fun d => (d - mean) ^ 2)).sum /
            (durations.length : ℚ)
        sqrtQ variance
      else 0
    let missed_deadlines :=
      (metrics.filter (fun m =>
        match m.duration_ms with
        | some d => missedBudget m.operation d
        | none => false)).length
    some { operation := operation
         , total_operations := total
         , success_rate := success_rate
         , avg_duration := avg_duration
         , min_duration := match min_duration with
            | some v => v
            | none => 0
         , max_duration := match max_duration with
            | some v => v
            | none => 0
         , jitter := jitter
         , missed_deadlines := missed_deadlines }

/-- MetricsCollector::generate_report from src/common/metrics.rs (lines
38-114), with the HashMap of stored samples modelled as an association
list with distinct keys: every operation with a nonempty sample list
contributes its OperationStats to the report. -/
def generate_report (sqrtQ : ℚ → ℚ)
    (entries : List (String × List PerformanceMetrics)) :
    List (String × OperationStats) :=
  entries.filterMap (fun e =>
    (reportEntry sqrtQ e.1 e.2).map (fun st => (e.1, st)))

/-- Concrete Force reading used as test input in several theorems. -/
def sampleReading (v conf : ℚ) : SensorData :=
  { timestamp := 0, sensor_id := "s1", reading_type := SensorType.Force,
    value := v, is_anomaly := false, confidence := conf }

/-- Concrete control command used as test input. -/
def sampleControl : ControlCommand :=
  { command_type := "adjust_position", payload := none, timestamp := 0,
    value := 1 }

/-- Concrete actuator command whose deadline (0 ms) is long past. -/
def expiredCommand : ActuatorCommand :=
  { command_id := "cmd_s1", actuator_id := "s1",
    control_command := sampleControl, priority := 1, deadline := 0 }

/-- C2: for every controller state and every setpoint, measurement and
dt > 0, PIDController.compute returns
kp*error + ki*(integral + error*dt) + kd*((error - previous_error)/dt)
with error = setpoint - measurement, and the post-state holds
integral + error*dt and previous_error = error; moreover two calls with
ki = 1, dt = 1 and error 2 on each call leave integral = 4. -/
theorem C2_pid_compute_correct :
    (∀ (c : PIDController) (setpoint measurement dt : ℚ) (now_ms : ℕ),
      0 < dt →
      ((c.compute setpoint measurement dt now_ms).1.value =
          c.kp * (setpoint - measurement) +
          c.ki * (c.integral + (setpoint - measurement) * dt) +
          c.kd * (((setpoint - measurement) - c.prev_error) / dt) ∧
        (c.compute setpoint measurement dt now_ms).2.integral =
          c.integral + (setpoint - measurement) * dt ∧
        (c.compute setpoint measurement dt now_ms).2.prev_error =
          setpoint - measurement)) ∧
    (∀ (kp kd s1 m1 s2 m2 : ℚ) (n1 n2 : ℕ),
      s1 - m1 = 2 → s2 - m2 = 2 →
      ((((PIDController.new kp 1 kd).compute s1 m1 1 n1).2.compute
          s2 m2 1 n2).2).integral = 4) := by
  constructor
  · intro c setpoint measurement dt now_ms _
    exact ⟨rfl, rfl, rfl⟩
  · intro kp kd s1 m1 s2 m2 n1 n2 h1 h2
    simp only [PIDController.compute, PIDController.new]
    rw [h1, h2]
    norm_num

/-- Closed instance of C2_pid_compute_correct: both parts applied at
concrete inputs, hypotheses discharged there. -/
theorem C2_pid_compute_correct_witness :
    (((PIDController.new 1 1 1).compute 10 7 1 0).2.integral =
        (PIDController.new 1 1 1).integral + (10 - 7) * 1) ∧
    ((((PIDController.new 0 1 0).compute 2 0 1 0).2.compute
        2 0 1 0).2).integral = 4 :=
  ⟨(C2_pid_compute_correct.1 (PIDController.new 1 1 1) 10 7 1 0
      (by norm_num)).2.1,
   C2_pid_compute_correct.2 0 0 2 0 2 0 0 0 (by norm_num) (by norm_num)⟩

/-- C7 counterexample: after compute with kp=1, ki=0, kd=0, dt=1,
setpoint=10, measurement=7 on a fresh controller, the integral state is
not 0 (the source accumulates error*dt = 3 regardless of ki). -/
theorem C7_counterexample :
    ((PIDController.new 1 0 0).compute 10 7 1 0).2.integral ≠ 0 := by
  norm_num [PIDController.compute, PIDController.new]

/-- C7 (amended): compute with kp=1, ki=0, kd=0, dt=1, setpoint=10,
measurement=7 on a fresh controller returns value 3.0 and leaves the
integral state at 3.0 (error*dt accumulates regardless of ki). -/
theorem C7_pid_concrete :
    ((PIDController.new 1 0 0).compute 10 7 1 0).1.value = 3 ∧
    ((PIDController.new 1 0 0).compute 10 7 1 0).2.integral = 3 := by
  norm_num [PIDController.compute, PIDController.new]

/-- C5 counterexample: a scheduler configured with a 10 ms interval still
advances next_instant to 5 (the hardcoded 5 ms), not to 0 + 10 as the
claim states. -/
theorem C5_counterexample :
    ((Scheduler.mk 10).tick 0 3).2 = 5 ∧ ((5 : ℚ) ≠ 0 + 10) := by
  constructor
  · norm_num [Scheduler.tick]
  · norm_num

/-- C5 (amended): on every tick the scheduler advances next_instant by
the hardcoded 5 ms, independent of the configured interval; it then
sleeps for next_instant - now when next_instant is still ahead of the
post-task time, and otherwise continues immediately, resynchronizing
next_instant to now (so a slow tick never causes catch-up ticks to run
back-to-back). -/
theorem C5_tick_behavior :
    (∀ (s1 s2 : Scheduler) (next now : ℚ),
      s1.tick next now = s2.tick next now) ∧
    (∀ (s : Scheduler) (next now : ℚ), now < next + 5 →
      s.tick next now = (some (next + 5 - now), next + 5)) ∧
    (∀ (s : Scheduler) (next now : ℚ), next + 5 ≤ now →
      s.tick next now = (none, now)) := by
  refine ⟨fun s1 s2 next now => rfl, fun s next now h => ?_,
    fun s next now h => ?_⟩
  · simp only [Scheduler.tick]
    rw [if_pos h]
  · simp only [Scheduler.tick]
    rw [if_neg (not_lt.mpr h)]

/-- Closed instance of C5_tick_behavior at concrete inputs. -/
theorem C5_tick_behavior_witness :
    ((Scheduler.mk 5).tick 0 3 = (Scheduler.mk 10).tick 0 3) ∧
    ((Scheduler.mk 5).tick 0 3 = (some (0 + 5 - 3), 0 + 5)) ∧
    ((Scheduler.mk 5).tick 0 7 = (none, 7)) :=
  ⟨C5_tick_behavior.1 (Scheduler.mk 5) (Scheduler.mk 10) 0 3,
   C5_tick_behavior.2.1 (Scheduler.mk 5) 0 3 (by norm_num),
   C5_tick_behavior.2.2 (Scheduler.mk 5) 0 7 (by norm_num)⟩

/-- C6: the actuator side has no deadline check: a command whose deadline
(0 ms) lies far in the past at processing time (5000 ms) is still
forwarded for execution by the run_actuator_system consumer loop, and
Executor::execute runs every command unconditionally. -/
theorem C6_expired_command_executed :
    (run_actuator_step 5000 expiredCommand).1 = some expiredCommand ∧
    expiredCommand.deadline < 5000 ∧
    Executor.executes Executor.mk expiredCommand.control_command = true := by
  refine ⟨rfl, ?_, rfl⟩
  decide

/-- C9: generate_actuator_command returns some request exactly when the
reading is flagged anomalous, and every generated request carries
deadline = now + 2000 ms. -/
theorem C9_generate_command :
    ∀ (p : DataProcessor) (now_ms : ℕ) (d : SensorData),
      ((p.generate_actuator_command now_ms d).isSome ↔
        d.is_anomaly = true) ∧
      (∀ cmd, p.generate_actuator_command now_ms d = some cmd →
        cmd.deadline = now_ms + 2000) := by
  intro p now_ms d
  by_cases h : d.is_anomaly = true
  · constructor
    · simp [DataProcessor.generate_actuator_command, h]
    · intro cmd hc
      simp only [DataProcessor.generate_actuator_command, h,
        if_true, Option.some.injEq] at hc
      rw [← hc]
  · constructor
    · simp [DataProcessor.generate_actuator_command, h]
    · intro cmd hc
      simp [DataProcessor.generate_actuator_command, h] at hc

/-- Closed instance of C9_generate_command: an anomalous reading at time
100 ms yields a request, necessarily with deadline 2100 ms. -/
theorem C9_generate_command_witness :
    (((DataProcessor.new 20).generate_actuator_command 100
        { sampleReading 42 (1/2) with is_anomaly := true }).isSome ↔
      { sampleReading 42 (1/2) with is_anomaly := true }.is_anomaly =
        true) ∧
    (((DataProcessor.new 20).generate_actuator_command 100
        { sampleReading 42 (1/2) with is_anomaly := true }) =
      some { command_id := "cmd_s1", actuator_id := "s1"
           , control_command :=
              { command_type := "adjust_position"
              , payload := some "new_target_position"
              , timestamp := 100, value := 42 }
           , priority := 1, deadline := 2100 } →
      (2100 : ℕ) = 100 + 2000) :=
  ⟨(C9_generate_command (DataProcessor.new 20) 100
      { sampleReading 42 (1/2) with is_anomaly := true }).1,
   fun h => (C9_generate_command (DataProcessor.new 20) 100
      { sampleReading 42 (1/2) with is_anomaly := true }).2 _ h⟩

/-- Every default per-kind threshold (with the 3.0 fallback) is positive. -/
lemma defaultThresholds_pos (rt : SensorType) :
    0 < (defaultThresholds rt).getD 3.0 := by
  cases rt <;> norm_num [defaultThresholds]

/-- When detect_anomaly is called with the reading's own value as the
mean, the z-score is 0 and the anomaly flag comes out false on both
branches (for a positive threshold). -/
lemma detect_anomaly_self_value (d : SensorData) (mean std_dev t : ℚ)
    (hd : d.value = mean) (ht : 0 < t) :
    (d.detect_anomaly mean std_dev t).is_anomaly = false := by
  simp only [SensorData.detect_anomaly, hd, sub_self, abs_zero, zero_div]
  split
  · simp only
    rw [decide_eq_false (by exact not_lt.mpr ht.le)]
  · rfl

/-- Processor state after ten identical Force readings of value 10. -/
def c1Warm : DataProcessor :=
  (DataProcessor.new 20).feed id (List.replicate 10 (sampleReading 10 (1/2)))

/-- Result of processing the outlier 1000 in that state. -/
def c1Out : SensorData × DataProcessor :=
  c1Warm.process id (sampleReading 1000 (1/2))

/-- Rolling statistics for sensor s1 after the outlier. -/
def c1Stats : Stats :=
  (c1Out.2.moving_averages "s1").getD Stats.init

/-- C1: the processor of src/sensor/processor.rs never flags an anomaly,
because process overwrites the reading's value with the rolling mean
before calling detect_anomaly with that same mean, making the z-score
identically 0.  First part: with the default thresholds, every processed
reading comes out with is_anomaly = false, for every processor state.
Second part: at the concrete failing input (ten Force readings of 10
followed by the outlier 1000), the accumulated count is 11 (at least the
claimed minimum 10), the claim's z-score |raw - mean| / std_dev exceeds
the Force threshold 2.5 (stated on squares: (1000 - mean)^2 >
2.5^2 * variance, variance = d_squared / count), and yet the processed
reading has is_anomaly = false. -/
theorem C1_anomaly_rule_broken :
    (∀ (sqrtQ : ℚ → ℚ) (mov : String → Option Stats) (w : ℕ)
      (raw : SensorData),
      (((DataProcessor.mk mov w defaultThresholds).process sqrtQ
          raw).1).is_anomaly = false) ∧
    (c1Stats.count = 11 ∧
      ((1000 : ℚ) - c1Stats.mean) ^ 2 >
        (2.5 : ℚ) ^ 2 * (c1Stats.d_squared / (c1Stats.count : ℚ)) ∧
      c1Out.1.is_anomaly = false) := by
  constructor
  · intro sqrtQ mov w raw
    exact detect_anomaly_self_value _ _ _ _ rfl
      (defaultThresholds_pos raw.reading_type)
  · refine ⟨?_, ?_, ?_⟩ <;>
      norm_num [c1Stats, c1Out, c1Warm, DataProcessor.feed,
        List.replicate, DataProcessor.new, DataProcessor.process,
        Stats.update, Stats.init, sampleReading,
        SensorData.detect_anomaly, defaultThresholds]

/-- Bounds for the confidence formula max (1 - min (z / (t*2)) 0.9) 0.1
shared by detect_anomaly and the src/sensors processor: for a nonnegative
z-score and positive threshold it lies in [0.1, 1]. -/
lemma confidence_formula_bounds (z t : ℚ) (hz : 0 ≤ z) (ht : 0 < t) :
    (0.1 : ℚ) ≤ max ((1 : ℚ) - min (z / (t * 2)) 0.9) 0.1 ∧
      max ((1 : ℚ) - min (z / (t * 2)) 0.9) 0.1 ≤ 1 := by
  refine ⟨le_max_right _ _, max_le ?_ (by norm_num)⟩
  have h0 : (0 : ℚ) ≤ min (z / (t * 2)) 0.9 :=
    le_min (div_nonneg hz (by linarith)) (by norm_num)
  linarith

/-- The confidence produced by detect_anomaly is 0 on the nonpositive
std_dev branch and lies in [0.1, 1] on the positive branch. -/
lemma detect_anomaly_confidence (d : SensorData) (mean std_dev t : ℚ)
    (ht : 0 < t) :
    (d.detect_anomaly mean std_dev t).confidence = 0 ∨
    ((0.1 : ℚ) ≤ (d.detect_anomaly mean std_dev t).confidence ∧
      (d.detect_anomaly mean std_dev t).confidence ≤ 1) := by
  simp only [SensorData.detect_anomaly]
  split
  · right
    exact confidence_formula_bounds _ _
      (div_nonneg (abs_nonneg _) (le_of_lt (by assumption))) ht
  · left
    norm_num

/-- C3 counterexample: the very first reading through a fresh processor
(std_dev still 0) comes out with confidence 0.0, outside [0.1, 0.95]. -/
theorem C3_counterexample :
    ¬((0.1 : ℚ) ≤
        (((DataProcessor.new 20).process id
          (sampleReading 10 (1/2))).1).confidence ∧
      (((DataProcessor.new 20).process id
          (sampleReading 10 (1/2))).1).confidence ≤ 0.95) := by
  norm_num [DataProcessor.new, DataProcessor.process, Stats.update,
    Stats.init, sampleReading, SensorData.detect_anomaly,
    defaultThresholds]

/-- C3 (amended): with the default thresholds, the confidence of a
processed reading is 0.0 on the zero-std-dev guard path and lies in
[0.1, 1.0] on the other paths — in the src/sensor processor (which
reaches exactly 1.0 whenever std_dev is positive, since its z-score is
identically 0) and in the src/sensors processor (0.95 below the minimum
sample count, [0.1, 1.0] on the z-score path); the claimed upper bound
0.95 does not hold. -/
theorem C3_confidence_range :
    (∀ (sqrtQ : ℚ → ℚ) (mov : String → Option Stats) (w : ℕ)
      (raw : SensorData),
      (((DataProcessor.mk mov w defaultThresholds).process sqrtQ
          raw).1).confidence = 0 ∨
      ((0.1 : ℚ) ≤ (((DataProcessor.mk mov w defaultThresholds).process
          sqrtQ raw).1).confidence ∧
        (((DataProcessor.mk mov w defaultThresholds).process sqrtQ
          raw).1).confidence ≤ 1)) ∧
    (∀ (mov : String → Option Sensors.Mean) (w : ℕ) (raw : SensorData),
      (0.1 : ℚ) ≤ (((Sensors.DataProcessor.mk mov w
          defaultThresholds).process raw).1).confidence ∧
        (((Sensors.DataProcessor.mk mov w defaultThresholds).process
          raw).1).confidence ≤ 1) := by
  constructor
  · intro sqrtQ mov w raw
    exact detect_anomaly_confidence _ _ _ _
      (defaultThresholds_pos raw.reading_type)
  · intro mov w raw
    simp only [Sensors.DataProcessor.process]
    split
    · exact confidence_formula_bounds _ _
        (div_nonneg (abs_nonneg _)
          (mul_nonneg (by norm_num) (abs_nonneg _)))
        (defaultThresholds_pos raw.reading_type)
    · norm_num

/-- C4 counterexample: below the minimum sample count the src/sensors
processor does not pass confidence through unchanged — an input with
confidence 0.5 comes out with the default confidence 0.95. -/
theorem C4_counterexample :
    (((Sensors.DataProcessor.new 10).process
        (sampleReading 10 (1/2))).1).confidence ≠
      (sampleReading 10 (1/2)).confidence := by
  norm_num [Sensors.DataProcessor.new, Sensors.DataProcessor.process,
    Sensors.Mean.with_capacity, Sensors.Mean.push, Sensors.Mean.len,
    Sensors.Mean.mean, sampleReading]

/-- C4 (amended): while the accumulated sample count is below 10, the
src/sensors processor passes is_anomaly through unchanged and sets
confidence to the default 0.95 (not the input confidence); and for a
stream of 9 identical values followed by one outlier through a fresh
processor, is_anomaly is false for the first 9 readings and is evaluated
by the z-score rule from the 10th onward (the outlier is flagged). -/
theorem C4_below_min_passthrough :
    (∀ (p : Sensors.DataProcessor) (raw : SensorData),
      (((p.moving_averages raw.sensor_id).getD
          (Sensors.Mean.with_capacity p.window_size)).push
            raw.value).len < 10 →
      ((p.process raw).1.is_anomaly = raw.is_anomaly ∧
        (p.process raw).1.confidence = 0.95)) ∧
    ((Sensors.DataProcessor.new 10).processSeq
        (List.replicate 9 (sampleReading 10 (1/2)) ++
          [sampleReading 1000 (1/2)])).map SensorData.is_anomaly =
      [false, false, false, false, false, false, false, false, false,
        true] := by
  constructor
  · intro p raw h
    simp only [Sensors.DataProcessor.process]
    rw [if_neg (not_le.mpr h)]
    exact ⟨rfl, rfl⟩
  · norm_num [Sensors.DataProcessor.processSeq,
      Sensors.DataProcessor.process, Sensors.DataProcessor.new,
      Sensors.Mean.with_capacity, Sensors.Mean.push, Sensors.Mean.len,
      Sensors.Mean.mean, sampleReading, defaultThresholds,
      List.replicate]

/-- Closed instance of C4_below_min_passthrough: the first reading into a
fresh processor (count 1 < 10) keeps is_anomaly and gets confidence
0.95. -/
theorem C4_below_min_passthrough_witness :
    ((Sensors.DataProcessor.new 10).process
        (sampleReading 10 (1/2))).1.is_anomaly =
      (sampleReading 10 (1/2)).is_anomaly ∧
    ((Sensors.DataProcessor.new 10).process
        (sampleReading 10 (1/2))).1.confidence = 0.95 :=
  C4_below_min_passthrough.1 (Sensors.DataProcessor.new 10)
    (sampleReading 10 (1/2))
    (by norm_num [Sensors.DataProcessor.new, Sensors.Mean.with_capacity,
      Sensors.Mean.push, Sensors.Mean.len, sampleReading])

/-- C8 counterexample: on the zero-std-dev guard path the confidence is
forced to 0.0, not to the claimed floor 0.1. -/
theorem C8_counterexample :
    (((DataProcessor.new 20).process id
        (sampleReading 7 (3/10))).1).confidence = 0 ∧
    (((DataProcessor.new 20).process id
        (sampleReading 7 (3/10))).1).confidence ≠ 0.1 := by
  norm_num [DataProcessor.new, DataProcessor.process, Stats.update,
    Stats.init, sampleReading, SensorData.detect_anomaly,
    defaultThresholds]

/-- C8 (amended): whenever the rolling std_dev used for a reading (the
accumulator for its sensor_id, updated with the reading's value) is 0,
the processed reading has is_anomaly forced to false and confidence
forced to 0.0. -/
theorem C8_zero_std_dev_guard :
    ∀ (sqrtQ : ℚ → ℚ) (p : DataProcessor) (raw : SensorData),
      (((p.moving_averages raw.sensor_id).getD Stats.init).update sqrtQ
        raw.value).std_dev = 0 →
      ((p.process sqrtQ raw).1.is_anomaly = false ∧
        (p.process sqrtQ raw).1.confidence = 0) := by
  intro sqrtQ p raw h
  simp only [DataProcessor.process, SensorData.detect_anomaly, h,
    gt_iff_lt, lt_self_iff_false, if_false]
  norm_num

/-- Closed instance of C8_zero_std_dev_guard: the first reading into a
fresh processor has rolling std_dev 0, so it comes out not anomalous
with confidence 0.0. -/
theorem C8_zero_std_dev_guard_witness :
    ((DataProcessor.new 20).process id
        (sampleReading 5 (1/2))).1.is_anomaly = false ∧
    ((DataProcessor.new 20).process id
        (sampleReading 5 (1/2))).1.confidence = 0 :=
  C8_zero_std_dev_guard id (DataProcessor.new 20) (sampleReading 5 (1/2))
    (by norm_num [DataProcessor.new, Stats.init, Stats.update,
      sampleReading])

/-- Keys of the generated report all come from the entry list. -/
lemma mem_keys_of_mem_generate_report (sqrtQ : ℚ → ℚ)
    (entries : List (String × List PerformanceMetrics))
    (pair : String × OperationStats)
    (h : pair ∈ generate_report sqrtQ entries) :
    pair.1 ∈ entries.map Prod.fst := by
  simp only [generate_report, List.mem_filterMap] at h
  obtain ⟨e, he, hmap⟩ := h
  obtain ⟨st, _, hpair⟩ := Option.map_eq_some'.mp hmap
  rw [← hpair]
  exact List.mem_map_of_mem Prod.fst he

/-- List.lookup misses every key absent from the association list. -/
lemma lookup_eq_none_of_not_mem_keys (op : String)
    (l : List (String × OperationStats))
    (h : op ∉ l.map Prod.fst) : l.lookup op = none := by
  induction l with
  | nil => rfl
  | cons a t ih =>
    obtain ⟨k, v⟩ := a
    simp only [List.map_cons, List.mem_cons, not_or] at h
    simp only [List.lookup, beq_eq_false_iff_ne.mpr h.1]
    exact ih h.2

/-- Looking up an operation in the generated report returns exactly the
reportEntry of its sample list, provided the map keys are distinct. -/
lemma lookup_generate_report (sqrtQ : ℚ → ℚ)
    (entries : List (String × List PerformanceMetrics)) (op : String)
    (ms : List PerformanceMetrics) :
    (entries.map Prod.fst).Nodup → (op, ms) ∈ entries →
    (generate_report sqrtQ entries).lookup op =
      reportEntry sqrtQ op ms := by
  induction entries with
  | nil =>
    intro _ hmem
    cases hmem
  | cons e t ih =>
    intro hnd hmem
    obtain ⟨k, bs⟩ := e
    simp only [List.map_cons, List.nodup_cons] at hnd
    rcases List.mem_cons.mp hmem with heq | hmem2
    · rw [Prod.mk.injEq] at heq
      obtain ⟨h1, h2⟩ := heq
      subst h1
      subst h2
      simp only [generate_report, List.filterMap_cons]
      cases hre : reportEntry sqrtQ op ms with
      | none =>
        simp only [Option.map_none']
        apply lookup_eq_none_of_not_mem_keys
        intro hcontra
        obtain ⟨pair, hp, hfst⟩ := List.mem_map.mp hcontra
        exact hnd.1 (hfst ▸ mem_keys_of_mem_generate_report sqrtQ t
          pair hp)
      | some st =>
        simp [List.lookup]
    · have hop : op ∈ t.map Prod.fst :=
        List.mem_map_of_mem Prod.fst hmem2
      have hne : op ≠ k := fun hh => hnd.1 (hh ▸ hop)
      simp only [generate_report, List.filterMap_cons]
      have iht := ih hnd.2 hmem2
      simp only [generate_report] at iht
      cases hre : reportEntry sqrtQ k bs with
      | none =>
        simp only [Option.map_none']
        exact iht
      | some st =>
        simp only [Option.map_some', List.lookup,
          beq_eq_false_iff_ne.mpr hne]
        exact iht

/-- Concrete duration-less successful sample used as test input. -/
def reportSample : PerformanceMetrics :=
  { operation := "data_processing", start_time := 0, end_time := none,
    duration_ms := none, success := true }

/-- The statistics generate_report produces for a single reportSample. -/
def reportStats : OperationStats :=
  { operation := "data_processing", total_operations := 1,
    success_rate := 100, avg_duration := 0, min_duration := 0,
    max_duration := 0, jitter := 0, missed_deadlines := 0 }

/-- C10: generate_report is total and never divides by zero: for a
metrics map with distinct operation keys, an operation appears in the
report exactly when its sample list is nonempty (empty lists are
skipped), its total_operations equals the sample count (so success_rate's
divisor ms.length is positive and success_rate is the success fraction
times 100), and when no sample carries a duration the reported average
and the min/max durations are all 0.0 rather than infinities. -/
theorem C10_report_well_formed :
    ∀ (sqrtQ : ℚ → ℚ)
      (entries : List (String × List PerformanceMetrics))
      (op : String) (ms : List PerformanceMetrics),
      (entries.map Prod.fst).Nodup → (op, ms) ∈ entries →
      ((((generate_report sqrtQ entries).lookup op).isSome ↔ ms ≠ []) ∧
       (∀ st, (generate_report sqrtQ entries).lookup op = some st →
         st.total_operations = ms.length ∧ 0 < ms.length ∧
         st.success_rate =
           ((ms.filter (fun m => m.success)).length : ℚ) /
             (ms.length : ℚ) * 100 ∧
         (ms.filterMap (fun m => m.duration_ms) = [] →
           st.avg_duration = 0 ∧ st.min_duration = 0 ∧
             st.max_duration = 0))) := by
  intro sqrtQ entries op ms hnd hmem
  rw [lookup_generate_report sqrtQ entries op ms hnd hmem]
  constructor
  · cases ms with
    | nil => simp [reportEntry]
    | cons m t => simp [reportEntry]
  · intro st hst
    cases ms with
    | nil => simp [reportEntry] at hst
    | cons m t =>
      rw [reportEntry] at hst
      simp only [List.isEmpty_cons, Bool.false_eq_true, if_false,
        Option.some.injEq] at hst
      subst hst
      refine ⟨rfl, by simp, rfl, ?_⟩
      intro hd
      rw [hd]
      norm_num [foldMin, foldMax]

/-- Closed instance of C10_report_well_formed on a two-operation map: one
operation with a single duration-less successful sample, one with no
samples; all hypotheses and the inner implications discharged. -/
theorem C10_report_well_formed_witness :
    ((((generate_report id
        [("data_processing", [reportSample]), ("idle", [])]).lookup
          "data_processing").isSome ↔
      ([reportSample] : List PerformanceMetrics) ≠ []) ∧
     (reportStats.total_operations =
        ([reportSample] : List PerformanceMetrics).length ∧
      0 < ([reportSample] : List PerformanceMetrics).length ∧
      reportStats.success_rate =
        ((([reportSample] : List PerformanceMetrics).filter
            (fun m => m.success)).length : ℚ) /
          (([reportSample] : List PerformanceMetrics).length : ℚ) *
            100 ∧
      (reportStats.avg_duration = 0 ∧ reportStats.min_duration = 0 ∧
        reportStats.max_duration = 0))) := by
  have h := C10_report_well_formed id
    [("data_processing", [reportSample]), ("idle", [])]
    "data_processing" [reportSample] (by simp) (by simp)
  have hl : (generate_report id
      [("data_processing", [reportSample]), ("idle", [])]).lookup
        "data_processing" = some reportStats := by
    norm_num [generate_report, reportEntry, reportSample, reportStats,
      List.lookup, foldMin, foldMax, missedBudget]
  have h2 := h.2 reportStats hl
  exact ⟨h.1, h2.1, h2.2.1, h2.2.2.1, h2.2.2.2 (by simp [reportSample])⟩

end RustAssignment
